import Mathlib

/-!
Shallow embedding of the throughput accounting subsystem of
`src/app/app.py` (wifi-dashboard): the counter source
(`get_network_stats`), the persistent total store
(`read_persistent_stats`), the throughput engine
(`calculate_throughput`) and the API layer (`api_throughput`).

Conventions of the embedding:
- Python integers are `Int`; Python floats (timestamps, rates) are
  idealised as `ℚ`.
- A JSON stats file on disk is a `StatsFile`: `missing` (no file),
  `corrupt` (fails to decode / unreadable, the cases caught by the
  `except (json.JSONDecodeError, ValueError, IOError)` handler), or
  `record` with each field either absent or an integer / rational value.
- Dictionaries keyed by interface name are association lists
  (`List (String × _)`) read with `List.lookup`, or total functions
  (`String → _`) when the key set is unbounded (the stats directory).
- Mutation of the module-level globals `last_stats` / `last_stats_time`
  and of the stats directory is explicit state passing: the engine
  returns the new `EngineState` and the new stats-directory contents.
- The outcome of the `systemctl is-active` subprocess call (including
  its exception path, which yields `active = False`) is a parameter
  `svcActive : String → Bool` of the environment.
-/

namespace WifiDashboard

/-- Python two-argument `max`: returns the second argument exactly when
it is strictly larger.  (Stated separately from Mathlib's `max` so that
the kernel can evaluate it on concrete rationals; `pymax_eq_max` below
identifies the two.) -/
def pymax {α : Type} [LinearOrder α] (a b : α) : α :=
  if a < b then b else a

theorem pymax_eq_max {α : Type} [LinearOrder α] (a b : α) :
    pymax a b = max a b := by
  unfold pymax
  rcases lt_trichotomy a b with h | h | h
  · simp [h, max_eq_right h.le]
  · simp [h]
  · simp [not_lt_of_gt h, max_eq_left h.le]

/-- Python substring test `needle in hay` on the character list of
`needle`, prefix-at-some-position form. -/
def isPrefixChars : List Char → List Char → Bool
  | [], _ => true
  | _ :: _, [] => false
  | c :: cs, d :: ds => c = d && isPrefixChars cs ds

/-- Python substring containment `needle in hay` over char lists. -/
def containsChars (needle : List Char) : List Char → Bool
  | [] => isPrefixChars needle []
  | d :: ds => isPrefixChars needle (d :: ds) || containsChars needle ds

/-- Python `needle in hay` for strings. -/
def containsStr (hay needle : String) : Bool :=
  containsChars needle.toList hay.toList

/-- One entry of the dict built per interface by `get_network_stats`
(app.py lines 167-173): rx/tx byte and packet counters plus the
`time.time()` capture timestamp. -/
structure RawCounterSample where
  rx_bytes : Int
  tx_bytes : Int
  rx_packets : Int
  tx_packets : Int
  timestamp : ℚ
deriving DecidableEq

/-- The name filter of `get_network_stats` (app.py line 161):
`iface in ['lo'] or 'docker' in iface or 'veth' in iface`. -/
def skip_network_iface (iface : String) : Bool :=
  iface = "lo" || containsStr iface "docker" || containsStr iface "veth"

/-- Counter Source `read` (app.py `get_network_stats`, lines 148-177).
The `/proc/net/dev` parse is abstracted to an association list of
already-parsed per-interface samples; the function keeps exactly the
entries not rejected by `skip_network_iface`.  A failed read is the
empty input list (the `except` handler leaves `stats = {}`). -/
def get_network_stats (osStats : List (String × RawCounterSample)) :
    List (String × RawCounterSample) :=
  osStats.filter (fun p => ! skip_network_iface p.1)

/-- The validated dict returned by `read_persistent_stats`
(app.py lines 192-196). -/
structure PersistentTotals where
  download : Int
  upload : Int
  timestamp : ℚ
deriving DecidableEq

/-- State of one `stats_<iface>.json` file.  `record` fields are
`none` when the key is absent from the decoded JSON object. -/
inductive StatsFile where
  | missing : StatsFile
  | corrupt : StatsFile
  | record (download upload : Option Int) (timestamp : Option ℚ) : StatsFile
deriving DecidableEq

/-- Persistent Total Store `get` (app.py `read_persistent_stats`,
lines 179-215).  Returns the totals dict and the file state left on
disk: a missing file is created holding zeros (lines 198-206); a file
that fails to decode is left untouched and zero defaults are returned
(lines 208-215); a decoded record is clamped with
`max(0, int(data.get(field, 0)))` and not rewritten (lines 188-196). -/
def read_persistent_stats (file : StatsFile) (now : ℚ) :
    PersistentTotals × StatsFile :=
  match file with
  | .missing => (⟨0, 0, now⟩, .record (some 0) (some 0) (some now))
  | .corrupt => (⟨0, 0, now⟩, .corrupt)
  | .record d u t =>
      (⟨pymax 0 (d.getD 0), pymax 0 (u.getD 0), t.getD now⟩, .record d u t)

/-- The interface assignment record consumed by the engine (produced by
`get_interface_assignments`): `bad_interface` is `None` when the
configured value was none/disabled/empty. -/
structure Assignments where
  good_interface : String
  bad_interface : Option String
  wired_interface : String
deriving DecidableEq

/-- Python truthiness-plus-`!= wifi-dashboard 'none'` guard
`if bad_iface and bad_iface != 'none'` (app.py lines 238, 259). -/
def bad_enabled (a : Assignments) : Option String :=
  match a.bad_interface with
  | some b => if b ≠ "" ∧ b ≠ "none" then some b else none
  | none => none

/-- The `service_map` dict of `calculate_throughput` (app.py lines
234-239) as a lookup with default `''`; a later dict insertion wins,
so the bad slot shadows the good slot which shadows the wired slot. -/
def service_map (a : Assignments) (iface : String) : String :=
  if bad_enabled a = some iface then "wifi-bad"
  else if iface = a.good_interface then "wifi-good"
  else if iface = a.wired_interface then "wired-test"
  else ""

/-- The candidate filter of `calculate_throughput` (app.py line 253):
`any(skip in iface for skip in ['lo', 'docker', 'veth', 'br-'])`. -/
def candidate_skip (iface : String) : Bool :=
  containsStr iface "lo" || containsStr iface "docker" ||
  containsStr iface "veth" || containsStr iface "br-"

/-- The candidate set built in app.py lines 249-260: names present in
the fresh reading that survive `candidate_skip`, plus the wired and
good interfaces, plus the bad interface when enabled.  Membership in
this list is what matters (Python uses a set). -/
def engine_candidates (a : Assignments)
    (current_stats : List (String × RawCounterSample)) : List String :=
  ((current_stats.map Prod.fst).filter (fun i => ! candidate_skip i))
    ++ [a.wired_interface, a.good_interface]
    ++ (match bad_enabled a with | some b => [b] | none => [])

/-- The elapsed-time computation of app.py line 264:
`dt = max(0.001, now - (last_stats_time or now))`; a zero
`last_stats_time` is falsy, so `now` is used in its place. -/
def dtCalc (now last_stats_time : ℚ) : ℚ :=
  pymax (1/1000) (now - (if last_stats_time = 0 then now else last_stats_time))

/-- The per-interface result dict entry of `calculate_throughput`
(app.py lines 301-310).  `download`/`upload` are in bytes per second. -/
structure ThroughputEntry where
  download : ℚ
  upload : ℚ
  active : Bool
  rx_packets : Int
  tx_packets : Int
  total_download : Int
  total_upload : Int
  stats_timestamp : ℚ
deriving DecidableEq

/-- The globals `last_stats` / `last_stats_time` (app.py lines 30-31),
initially `({}, 0)`. -/
structure EngineState where
  last_stats : List (String × RawCounterSample)
  last_stats_time : ℚ
deriving DecidableEq

/-- Environment of one engine invocation: the clock, the parsed
`/proc/net/dev` contents, the resolved assignments (the reading
failure path of app.py lines 240-247 corresponds to passing the
default assignments), the `systemctl is-active` outcome per service
name, and the contents of the stats directory. -/
structure Env where
  now : ℚ
  osStats : List (String × RawCounterSample)
  assignments : Assignments
  svcActive : String → Bool
  store : String → StatsFile

/-- Body of the per-candidate loop of `calculate_throughput` (app.py
lines 266-310): rate and packet deltas clamped at zero (zero when
either side of the comparison pair is missing, or when there is no
usable previous snapshot), the `active` flag, and the persistent
totals read through `read_persistent_stats`. -/
def mkThroughputEntry (env : Env) (st : EngineState)
    (current_stats : List (String × RawCounterSample)) (iface : String) :
    ThroughputEntry :=
  let dt := dtCalc env.now st.last_stats_time
  let cur := List.lookup iface current_stats
  let prev : Option RawCounterSample :=
    if st.last_stats ≠ [] ∧ 0 < st.last_stats_time then
      List.lookup iface st.last_stats
    else none
  let rates : ℚ × ℚ × Int × Int :=
    match cur, prev with
    | some c, some p =>
        (pymax 0 (((c.rx_bytes - p.rx_bytes : Int) : ℚ) / dt),
         pymax 0 (((c.tx_bytes - p.tx_bytes : Int) : ℚ) / dt),
         pymax 0 (c.rx_packets - p.rx_packets),
         pymax 0 (c.tx_packets - p.tx_packets))
    | _, _ => (0, 0, 0, 0)
  let svc := service_map env.assignments iface
  let active : Bool :=
    if svc ≠ "" then env.svcActive svc
    else match cur with
         | some c => decide (0 < c.rx_bytes)
         | none => false
  let totals := (read_persistent_stats (env.store iface) env.now).1
  { download := rates.1
    upload := rates.2.1
    active := active
    rx_packets := rates.2.2.1
    tx_packets := rates.2.2.2
    total_download := totals.download
    total_upload := totals.upload
    stats_timestamp := totals.timestamp }

/-- Result of one engine invocation: the throughput dict (defined on
exactly the candidate set), the new globals, and the stats directory
after the per-interface `read_persistent_stats` calls. -/
structure EngineResult where
  throughput : String → Option ThroughputEntry
  state : EngineState
  store : String → StatsFile

/-- Throughput Engine `sample` (app.py `calculate_throughput`, lines
217-316): reads the Counter Source, builds the candidate set, emits
one entry per candidate, and advances the globals to the fresh
reading and timestamp. -/
def calculate_throughput (env : Env) (st : EngineState) : EngineResult :=
  let current_stats := get_network_stats env.osStats
  let candidates := engine_candidates env.assignments current_stats
  { throughput := fun iface =>
      if iface ∈ candidates then
        some (mkThroughputEntry env st current_stats iface)
      else none
    state := { last_stats := current_stats, last_stats_time := env.now }
    store := fun iface =>
      if iface ∈ candidates then
        (read_persistent_stats (env.store iface) env.now).2
      else env.store iface }

/-- Round-half-to-even on ℚ, the semantics of Python `round` applied
to an exact value. -/
def roundHalfEven (x : ℚ) : ℤ :=
  if x - ⌊x⌋ < 1/2 then ⌊x⌋
  else if 1/2 < x - ⌊x⌋ then ⌊x⌋ + 1
  else if ⌊x⌋ % 2 = 0 then ⌊x⌋ else ⌊x⌋ + 1

/-- Python `round(x, ndigits)` on an exact rational. -/
def pyround (x : ℚ) (ndigits : ℕ) : ℚ :=
  (roundHalfEven (x * 10 ^ ndigits) : ℚ) / 10 ^ ndigits

/-- One value of the `out` dict of `api_throughput` (app.py lines
646-665): Mbps rates rounded to 2 places, MB totals rounded to 1. -/
structure ApiEntry where
  download : ℚ
  upload : ℚ
  active : Bool
  rx_packets : Int
  tx_packets : Int
  total_download : ℚ
  total_upload : ℚ
deriving DecidableEq

/-- The candidate set of `api_throughput` (app.py lines 628-629):
the literal `"eth0"`, the good interface, the bad interface when
present, with falsy (empty) names dropped. -/
def api_candidates (a : Assignments) : List String :=
  (["eth0", a.good_interface]
    ++ (match a.bad_interface with | some b => [b] | none => []))
    |>.filter (fun i => i ≠ "")

/-- The `/api/throughput` handler core (app.py `api_throughput`,
lines 618-667): one engine invocation, then unit conversion per API
candidate, with an all-zero inactive entry for candidates missing
from the engine result (lines 655-665). -/
def api_throughput (env : Env) (st : EngineState) :
    (String → Option ApiEntry) × EngineState × (String → StatsFile) :=
  let r := calculate_throughput env st
  let cands := api_candidates env.assignments
  (fun iface =>
    if iface ∈ cands then
      some (match r.throughput iface with
        | some d =>
            { download := pyround (d.download * 8 / 1000000) 2
              upload := pyround (d.upload * 8 / 1000000) 2
              active := d.active
              rx_packets := d.rx_packets
              tx_packets := d.tx_packets
              total_download := pyround ((d.total_download : ℚ) / (1024 * 1024)) 1
              total_upload := pyround ((d.total_upload : ℚ) / (1024 * 1024)) 1 }
        | none =>
            { download := 0, upload := 0, active := false,
              rx_packets := 0, tx_packets := 0,
              total_download := 0, total_upload := 0 })
    else none,
   r.state, r.store)

/-! ### Helper lemmas -/

theorem le_pymax_left {α : Type} [LinearOrder α] (a b : α) : a ≤ pymax a b := by
  rw [pymax_eq_max]; exact le_max_left a b

theorem pymax_zero_div (x d : ℚ) (hd : 0 ≤ d) :
    pymax 0 x / d = pymax 0 (x / d) := by
  rw [pymax_eq_max, pymax_eq_max, div_eq_mul_inv, div_eq_mul_inv,
    max_mul_of_nonneg _ _ (inv_nonneg.mpr hd), zero_mul]

theorem dtCalc_ge (now t : ℚ) : 1/1000 ≤ dtCalc now t := by
  rw [dtCalc, pymax_eq_max]; exact le_max_left _ _

theorem dtCalc_pos (now t : ℚ) : 0 < dtCalc now t :=
  lt_of_lt_of_le (by norm_num) (dtCalc_ge now t)

theorem throughput_apply (env : Env) (st : EngineState) (iface : String) :
    (calculate_throughput env st).throughput iface =
      if iface ∈ engine_candidates env.assignments (get_network_stats env.osStats)
      then some (mkThroughputEntry env st (get_network_stats env.osStats) iface)
      else none := rfl

theorem store_apply (env : Env) (st : EngineState) (iface : String) :
    (calculate_throughput env st).store iface =
      if iface ∈ engine_candidates env.assignments (get_network_stats env.osStats)
      then (read_persistent_stats (env.store iface) env.now).2
      else env.store iface := rfl

theorem throughput_eq_some (env : Env) (st : EngineState) (iface : String)
    (e : ThroughputEntry)
    (he : (calculate_throughput env st).throughput iface = some e) :
    e = mkThroughputEntry env st (get_network_stats env.osStats) iface := by
  rw [throughput_apply] at he
  by_cases h : iface ∈ engine_candidates env.assignments (get_network_stats env.osStats)
  · rw [if_pos h] at he
    exact (Option.some_injective _ he).symm
  · rw [if_neg h] at he
    exact absurd he (by simp)

theorem mkThroughputEntry_totals (env : Env) (st : EngineState)
    (cs : List (String × RawCounterSample)) (iface : String) :
    (mkThroughputEntry env st cs iface).total_download
        = ((read_persistent_stats (env.store iface) env.now).1).download ∧
    (mkThroughputEntry env st cs iface).total_upload
        = ((read_persistent_stats (env.store iface) env.now).1).upload ∧
    (mkThroughputEntry env st cs iface).stats_timestamp
        = ((read_persistent_stats (env.store iface) env.now).1).timestamp :=
  ⟨rfl, rfl, rfl⟩

theorem mkThroughputEntry_rates_of_both (env : Env) (st : EngineState)
    (cs : List (String × RawCounterSample)) (iface : String)
    (c p : RawCounterSample)
    (hcur : List.lookup iface cs = some c)
    (hne : st.last_stats ≠ []) (ht : 0 < st.last_stats_time)
    (hprev : List.lookup iface st.last_stats = some p) :
    (mkThroughputEntry env st cs iface).download
        = pymax 0 (((c.rx_bytes - p.rx_bytes : Int) : ℚ)
            / dtCalc env.now st.last_stats_time) ∧
    (mkThroughputEntry env st cs iface).upload
        = pymax 0 (((c.tx_bytes - p.tx_bytes : Int) : ℚ)
            / dtCalc env.now st.last_stats_time) ∧
    (mkThroughputEntry env st cs iface).rx_packets
        = pymax 0 (c.rx_packets - p.rx_packets) ∧
    (mkThroughputEntry env st cs iface).tx_packets
        = pymax 0 (c.tx_packets - p.tx_packets) := by
  simp [mkThroughputEntry, hcur, if_pos (And.intro hne ht), hprev]

theorem mkThroughputEntry_rates_of_missing_cur (env : Env) (st : EngineState)
    (cs : List (String × RawCounterSample)) (iface : String)
    (hcur : List.lookup iface cs = none) :
    (mkThroughputEntry env st cs iface).download = 0 ∧
    (mkThroughputEntry env st cs iface).upload = 0 ∧
    (mkThroughputEntry env st cs iface).rx_packets = 0 ∧
    (mkThroughputEntry env st cs iface).tx_packets = 0 := by
  simp [mkThroughputEntry, hcur]

theorem mkThroughputEntry_rates_first_cycle (env : Env) (st : EngineState)
    (cs : List (String × RawCounterSample)) (iface : String)
    (h : st.last_stats = []) :
    (mkThroughputEntry env st cs iface).download = 0 ∧
    (mkThroughputEntry env st cs iface).upload = 0 ∧
    (mkThroughputEntry env st cs iface).rx_packets = 0 ∧
    (mkThroughputEntry env st cs iface).tx_packets = 0 := by
  have hcond : ¬(st.last_stats ≠ [] ∧ 0 < st.last_stats_time) := by
    intro hc; exact hc.1 h
  simp only [mkThroughputEntry, if_neg hcond]
  cases List.lookup iface cs <;> exact ⟨rfl, rfl, rfl, rfl⟩

theorem read_persistent_stats_nonneg (f : StatsFile) (now : ℚ) :
    0 ≤ ((read_persistent_stats f now).1).download ∧
    0 ≤ ((read_persistent_stats f now).1).upload := by
  cases f with
  | missing => exact ⟨le_refl 0, le_refl 0⟩
  | corrupt => exact ⟨le_refl 0, le_refl 0⟩
  | record d u t => exact ⟨le_pymax_left 0 _, le_pymax_left 0 _⟩

theorem mkThroughputEntry_nonneg (env : Env) (st : EngineState)
    (cs : List (String × RawCounterSample)) (iface : String) :
    0 ≤ (mkThroughputEntry env st cs iface).download ∧
    0 ≤ (mkThroughputEntry env st cs iface).upload ∧
    0 ≤ (mkThroughputEntry env st cs iface).rx_packets ∧
    0 ≤ (mkThroughputEntry env st cs iface).tx_packets ∧
    0 ≤ (mkThroughputEntry env st cs iface).total_download ∧
    0 ≤ (mkThroughputEntry env st cs iface).total_upload := by
  have htot := read_persistent_stats_nonneg (env.store iface) env.now
  refine ⟨?_, ?_, ?_, ?_, htot.1, htot.2⟩ <;>
    · simp only [mkThroughputEntry]
      split <;> first | exact le_pymax_left 0 _ | exact le_refl 0

theorem api_apply_not_mem (env : Env) (st : EngineState) (iface : String)
    (h : iface ∉ api_candidates env.assignments) :
    (api_throughput env st).1 iface = none := by
  simp only [api_throughput]
  exact if_neg h

theorem api_apply_mem_isSome (env : Env) (st : EngineState) (iface : String)
    (h : iface ∈ api_candidates env.assignments) :
    ((api_throughput env st).1 iface).isSome = true := by
  simp only [api_throughput]
  rw [if_pos h]
  rfl

/-! ### Concrete scenarios used by counterexamples and witnesses -/

/-- C1 scenario: one successful cycle with a positive clamped delta of
1024 download bytes, on top of a durable record of 5000000/1000000. -/
def c1Env : Env :=
  { now := 11
    osStats := [("eth0", ⟨2024, 500, 20, 5, 11⟩)]
    assignments := ⟨"wlan0", some "wlan1", "eth0"⟩
    svcActive := fun _ => false
    store := fun i =>
      if i = "eth0" then .record (some 5000000) (some 1000000) (some 1)
      else .missing }

def c1St : EngineState := ⟨[("eth0", ⟨1000, 500, 10, 5, 10⟩)], 10⟩

/-- C1 witness environment: empty reading, durable record 7/3. -/
def c1wEnv : Env :=
  { now := 3
    osStats := []
    assignments := ⟨"wlan0", some "wlan1", "eth0"⟩
    svcActive := fun _ => false
    store := fun _ => .record (some 7) (some 3) (some 1) }

/-- C2 scenario (spec §8 concrete scenario): eth0 rx 1000 → 2024 one
second later. -/
def c2Env : Env :=
  { now := 11
    osStats := [("eth0", ⟨2024, 500, 20, 5, 11⟩)]
    assignments := ⟨"wlan0", some "wlan1", "eth0"⟩
    svcActive := fun _ => false
    store := fun _ => .missing }

def c2St : EngineState := ⟨[("eth0", ⟨1000, 500, 10, 5, 10⟩)], 10⟩

/-- C3 scenario (spec §8 reset scenario): wlan0 rx 50000 → 200, a
counter reset. -/
def c3Env : Env :=
  { now := 11
    osStats := [("wlan0", ⟨200, 100, 205, 50, 11⟩)]
    assignments := ⟨"wlan0", some "wlan1", "eth0"⟩
    svcActive := fun _ => false
    store := fun _ => .missing }

def c3St : EngineState := ⟨[("wlan0", ⟨50000, 100, 500, 50, 10⟩)], 10⟩

/-- C6 scenario: reading contains only eth0; wlan0 has a durable
record of 123/45. -/
def c6Env : Env :=
  { now := 2
    osStats := [("eth0", ⟨10, 20, 1, 2, 2⟩)]
    assignments := ⟨"wlan0", some "wlan1", "eth0"⟩
    svcActive := fun _ => false
    store := fun i =>
      if i = "wlan0" then .record (some 123) (some 45) (some 1)
      else .missing }

/-- C7 scenario: first post-start cycle with large raw counters. -/
def c7Env : Env :=
  { now := 5
    osStats := [("eth0", ⟨999999, 888888, 777, 666, 5⟩)]
    assignments := ⟨"wlan0", some "wlan1", "eth0"⟩
    svcActive := fun _ => false
    store := fun _ => .missing }

/-- C9 scenario: the configured wired interface is `enp3s0`, not
`eth0`. -/
def c9Env : Env :=
  { now := 1
    osStats := []
    assignments := ⟨"wlan0", some "wlan1", "enp3s0"⟩
    svcActive := fun _ => false
    store := fun _ => .missing }

/-! ### Claim theorems -/

/-- C8: the elapsed time used by the engine's rate computation,
`dt = max(0.001, now - (last_stats_time or now))`, is bounded below by
the positive epsilon `1/1000` for every pair of timestamps, so the
rate division never divides by zero, including on the first cycle
(`last_stats_time = 0`) or when the two reads share a timestamp. -/
theorem c8_dt_clamped_below_epsilon (now t : ℚ) :
    1/1000 ≤ dtCalc now t ∧ 0 < dtCalc now t :=
  ⟨dtCalc_ge now t, dtCalc_pos now t⟩

/-- C10: for a durable record whose download/upload fields are
integers (a missing field defaulting to 0), `read_persistent_stats`
returns `max 0` of each stored field, hence non-negative totals even
when the stored file holds negative values. -/
theorem c10_get_clamps_stored_totals (od ou : Option Int) (ot : Option ℚ)
    (now : ℚ) :
    ((read_persistent_stats (.record od ou ot) now).1).download
        = max 0 (od.getD 0) ∧
    ((read_persistent_stats (.record od ou ot) now).1).upload
        = max 0 (ou.getD 0) ∧
    0 ≤ ((read_persistent_stats (.record od ou ot) now).1).download ∧
    0 ≤ ((read_persistent_stats (.record od ou ot) now).1).upload :=
  ⟨pymax_eq_max 0 (od.getD 0), pymax_eq_max 0 (ou.getD 0),
   le_pymax_left 0 _, le_pymax_left 0 _⟩

/-- C4 (counterexample): on a corrupt durable record,
`read_persistent_stats` returns the zero baseline but leaves the file
corrupt — it does not recreate the durable record as the claim
states. -/
theorem c4_counterexample :
    (read_persistent_stats .corrupt 5).1 = ⟨0, 0, 5⟩ ∧
    (read_persistent_stats .corrupt 5).2 = StatsFile.corrupt ∧
    (read_persistent_stats .corrupt 5).2
        ≠ StatsFile.record (some 0) (some 0) (some 5) := by
  refine ⟨rfl, rfl, ?_⟩
  intro h
  exact StatsFile.noConfusion h

/-- C4 (amended): `read_persistent_stats` never fails on a missing or
undecodable record: a missing record yields the zero totals and the
zero record is durably written immediately; a corrupt/unreadable
record yields the zero baseline (with a logged error) but the durable
record is left as-is, not recreated. -/
theorem c4_get_soft_fails (now : ℚ) :
    read_persistent_stats .missing now
        = (⟨0, 0, now⟩, .record (some 0) (some 0) (some now)) ∧
    read_persistent_stats .corrupt now = (⟨0, 0, now⟩, .corrupt) :=
  ⟨rfl, rfl⟩

/-- C5 (counterexample): the Counter Source keeps an interface named
`"br-0"` even though its name contains the substring `"br-"`, and
keeps `"wlo1"` even though its name contains the substring `"lo"`;
the claimed exclusion by those substrings does not happen in
`get_network_stats`. -/
theorem c5_counterexample :
    containsStr "br-0" "br-" = true ∧
    containsStr "wlo1" "lo" = true ∧
    get_network_stats [("br-0", ⟨1, 2, 3, 4, 5⟩)]
        = [("br-0", ⟨1, 2, 3, 4, 5⟩)] ∧
    get_network_stats [("wlo1", ⟨1, 2, 3, 4, 5⟩)]
        = [("wlo1", ⟨1, 2, 3, 4, 5⟩)] := by
  refine ⟨by decide, by decide, ?_, ?_⟩ <;> decide

/-- C5 (amended): `get_network_stats` excludes exactly the interfaces
whose name is equal to `"lo"` or contains `"docker"` or `"veth"`;
names merely containing `"lo"`, and names containing `"br-"`, are
returned (the engine's separate candidate filter, not the Counter
Source, drops those). -/
theorem c5_source_filter_exact (osStats : List (String × RawCounterSample))
    (name : String) :
    (name ∈ (get_network_stats osStats).map Prod.fst) ↔
      (name ∈ osStats.map Prod.fst ∧
        name ≠ "lo" ∧ containsStr name "docker" = false ∧
        containsStr name "veth" = false) := by
  have hskip : ∀ n : String, skip_network_iface n = false ↔
      (n ≠ "lo" ∧ containsStr n "docker" = false ∧
        containsStr n "veth" = false) := by
    intro n; simp [skip_network_iface, and_assoc]
  rw [← hskip name]
  simp only [get_network_stats, List.mem_map, List.mem_filter,
    Bool.not_eq_true']
  constructor
  · rintro ⟨⟨a, b⟩, ⟨hmem, hs⟩, rfl⟩
    exact ⟨⟨(a, b), hmem, rfl⟩, hs⟩
  · rintro ⟨⟨⟨a, b⟩, hmem, rfl⟩, hs⟩
    exact ⟨(a, b), ⟨hmem, hs⟩, rfl⟩

/-- C5 (amended) witness: an ordinary interface name passes the
Counter Source filter. -/
theorem c5_source_filter_exact_witness :
    "eth0" ∈ (get_network_stats [("eth0", ⟨1, 2, 3, 4, 5⟩)]).map Prod.fst :=
  (c5_source_filter_exact [("eth0", ⟨1, 2, 3, 4, 5⟩)] "eth0").mpr
    ⟨by decide, by decide, by decide, by decide⟩

/-- C1 (counterexample): on a cycle with a positive clamped download
delta of 1024 bytes, the engine reports and leaves stored the prior
durable total 5000000 — not 5000000 + 1024 as the claim requires, so
`add` with the cycle's deltas never happens. -/
theorem c1_counterexample :
    ((calculate_throughput c1Env c1St).throughput "eth0").map
        (fun e => e.download) = some 1024 ∧
    ((calculate_throughput c1Env c1St).throughput "eth0").map
        (fun e => e.total_download) = some 5000000 ∧
    (calculate_throughput c1Env c1St).store "eth0"
        = .record (some 5000000) (some 1000000) (some 1) ∧
    ((calculate_throughput c1Env c1St).throughput "eth0").map
        (fun e => e.total_download) ≠ some (5000000 + 1024) := by
  have htot : ((calculate_throughput c1Env c1St).throughput "eth0").map
      (fun e => e.total_download) = some 5000000 := by
    simp only [calculate_throughput, c1Env, c1St, get_network_stats]
    norm_num [engine_candidates, mkThroughputEntry, List.lookup, dtCalc, pymax,
      skip_network_iface, candidate_skip, containsStr, containsChars,
      isPrefixChars, bad_enabled, service_map, read_persistent_stats]
  refine ⟨?_, htot, ?_, ?_⟩
  · simp only [calculate_throughput, c1Env, c1St, get_network_stats]
    norm_num [engine_candidates, mkThroughputEntry, List.lookup, dtCalc, pymax,
      skip_network_iface, candidate_skip, containsStr, containsChars,
      isPrefixChars, bad_enabled, service_map, read_persistent_stats]
  · simp only [calculate_throughput, c1Env, c1St, get_network_stats]
    norm_num [engine_candidates, List.lookup, skip_network_iface,
      candidate_skip, containsStr, containsChars, isPrefixChars, bad_enabled,
      read_persistent_stats]
  · rw [htot]
    decide

/-- C1 (amended): on every engine sample cycle the Persistent Total
Store is only read, never updated with the cycle's deltas: for every
candidate interface with an existing durable record, the reported
cumulative totals equal the clamped stored totals and the durable
record after the cycle is unchanged. -/
theorem c1_engine_reads_but_never_adds (env : Env) (st : EngineState)
    (iface : String) (od ou : Option Int) (ot : Option ℚ)
    (hmem : iface ∈ engine_candidates env.assignments
        (get_network_stats env.osStats))
    (hrec : env.store iface = .record od ou ot) :
    ((calculate_throughput env st).throughput iface).map
        (fun e => e.total_download) = some (max 0 (od.getD 0)) ∧
    ((calculate_throughput env st).throughput iface).map
        (fun e => e.total_upload) = some (max 0 (ou.getD 0)) ∧
    (calculate_throughput env st).store iface = env.store iface := by
  have ht := mkThroughputEntry_totals env st (get_network_stats env.osStats) iface
  rw [throughput_apply, store_apply, if_pos hmem, if_pos hmem]
  refine ⟨?_, ?_, ?_⟩
  · rw [Option.map_some', ht.1, hrec]
    simp [read_persistent_stats, pymax_eq_max]
  · rw [Option.map_some', ht.2.1, hrec]
    simp [read_persistent_stats, pymax_eq_max]
  · rw [hrec]
    rfl

/-- C1 (amended) witness: with a durable record of 7/3, the engine
reports totals 7/3 and leaves the record unchanged. -/
theorem c1_engine_reads_but_never_adds_witness :
    ((calculate_throughput c1wEnv ⟨[], 0⟩).throughput "eth0").map
        (fun e => e.total_download) = some 7 ∧
    (calculate_throughput c1wEnv ⟨[], 0⟩).store "eth0"
        = .record (some 7) (some 3) (some 1) := by
  have h := c1_engine_reads_but_never_adds c1wEnv ⟨[], 0⟩ "eth0"
      (some 7) (some 3) (some 1) (by decide) rfl
  refine ⟨h.1.trans ?_, h.2.2.trans rfl⟩
  norm_num

/-- C2 (counterexample): on the spec's concrete scenario (eth0 rx
1000 → 2024 in 1 second) the engine's download rate is 1024 — bytes
per second — not the 8192 bits per second the claim states. -/
theorem c2_counterexample :
    ((calculate_throughput c2Env c2St).throughput "eth0").map
        (fun e => e.download) = some 1024 ∧
    ((calculate_throughput c2Env c2St).throughput "eth0").map
        (fun e => e.upload) = some 0 ∧
    ((calculate_throughput c2Env c2St).throughput "eth0").map
        (fun e => e.download) ≠ some 8192 := by
  have hd : ((calculate_throughput c2Env c2St).throughput "eth0").map
      (fun e => e.download) = some 1024 := by
    simp only [calculate_throughput, c2Env, c2St, get_network_stats]
    norm_num [engine_candidates, mkThroughputEntry, List.lookup, dtCalc, pymax,
      skip_network_iface, candidate_skip, containsStr, containsChars,
      isPrefixChars, bad_enabled, service_map, read_persistent_stats]
  refine ⟨hd, ?_, ?_⟩
  · simp only [calculate_throughput, c2Env, c2St, get_network_stats]
    norm_num [engine_candidates, mkThroughputEntry, List.lookup, dtCalc, pymax,
      skip_network_iface, candidate_skip, containsStr, containsChars,
      isPrefixChars, bad_enabled, service_map, read_persistent_stats]
  · rw [hd]
    decide

/-- C2 (amended): the per-interface rates returned by the engine's
sample operation are in bytes per second — rate = max(0, Δbytes) / Δt
— with the ×8 bits conversion applied only later by `api_throughput`;
on the spec's scenario the engine's download rate is 1024 bytes/s and
its upload rate is 0. -/
theorem c2_engine_rates_bytes_per_second (env : Env) (st : EngineState)
    (iface : String) (c p : RawCounterSample)
    (hmem : iface ∈ engine_candidates env.assignments
        (get_network_stats env.osStats))
    (hcur : List.lookup iface (get_network_stats env.osStats) = some c)
    (hne : st.last_stats ≠ []) (ht : 0 < st.last_stats_time)
    (hprev : List.lookup iface st.last_stats = some p) :
    ((calculate_throughput env st).throughput iface).map
        (fun e => e.download)
      = some ((max 0 ((c.rx_bytes - p.rx_bytes : Int) : ℚ))
          / dtCalc env.now st.last_stats_time) ∧
    ((calculate_throughput env st).throughput iface).map
        (fun e => e.upload)
      = some ((max 0 ((c.tx_bytes - p.tx_bytes : Int) : ℚ))
          / dtCalc env.now st.last_stats_time) := by
  have hr := mkThroughputEntry_rates_of_both env st
      (get_network_stats env.osStats) iface c p hcur hne ht hprev
  have hdt := (dtCalc_pos env.now st.last_stats_time).le
  rw [throughput_apply, if_pos hmem]
  constructor
  · rw [Option.map_some', hr.1, ← pymax_zero_div _ _ hdt, pymax_eq_max]
  · rw [Option.map_some', hr.2.1, ← pymax_zero_div _ _ hdt, pymax_eq_max]

/-- C2 (amended) witness: the spec scenario instantiated — download
rate 1024 bytes per second, upload rate 0. -/
theorem c2_engine_rates_bytes_per_second_witness :
    ((calculate_throughput c2Env c2St).throughput "eth0").map
        (fun e => e.download)
      = some ((max 0 ((2024 - 1000 : Int) : ℚ)) / dtCalc 11 10) ∧
    ((calculate_throughput c2Env c2St).throughput "eth0").map
        (fun e => e.upload)
      = some ((max 0 ((500 - 500 : Int) : ℚ)) / dtCalc 11 10) := by
  have h := c2_engine_rates_bytes_per_second c2Env c2St "eth0"
      ⟨2024, 500, 20, 5, 11⟩ ⟨1000, 500, 10, 5, 10⟩
      (by decide) (by decide) (by decide) (by norm_num [c2St]) (by decide)
  exact h

/-- C3: every rate, packet delta and cumulative total in the engine's
output is ≥ 0, and for consecutive readings of the same interface the
packet deltas equal max(0, current − previous) while each byte rate
times Δt equals the clamped byte delta max(0, current − previous), so
a decreased counter contributes a zero delta. -/
theorem c3_clamped_deltas_nonneg_output (env : Env) (st : EngineState) :
    (∀ iface e, (calculate_throughput env st).throughput iface = some e →
        0 ≤ e.download ∧ 0 ≤ e.upload ∧ 0 ≤ e.rx_packets ∧
        0 ≤ e.tx_packets ∧ 0 ≤ e.total_download ∧ 0 ≤ e.total_upload) ∧
    (∀ iface e c p,
        (calculate_throughput env st).throughput iface = some e →
        List.lookup iface (get_network_stats env.osStats) = some c →
        st.last_stats ≠ [] → 0 < st.last_stats_time →
        List.lookup iface st.last_stats = some p →
        e.rx_packets = max 0 (c.rx_packets - p.rx_packets) ∧
        e.tx_packets = max 0 (c.tx_packets - p.tx_packets) ∧
        e.download * dtCalc env.now st.last_stats_time
            = ((max 0 (c.rx_bytes - p.rx_bytes) : Int) : ℚ) ∧
        e.upload * dtCalc env.now st.last_stats_time
            = ((max 0 (c.tx_bytes - p.tx_bytes) : Int) : ℚ)) := by
  constructor
  · intro iface e he
    have hE := throughput_eq_some env st iface e he
    subst hE
    exact mkThroughputEntry_nonneg env st _ iface
  · intro iface e c p he hcur hne ht hprev
    have hE := throughput_eq_some env st iface e he
    subst hE
    have hr := mkThroughputEntry_rates_of_both env st
        (get_network_stats env.osStats) iface c p hcur hne ht hprev
    have hdt := dtCalc_pos env.now st.last_stats_time
    refine ⟨by rw [hr.2.2.1, pymax_eq_max],
      by rw [hr.2.2.2, pymax_eq_max], ?_, ?_⟩
    · rw [hr.1, ← pymax_zero_div _ _ hdt.le,
        div_mul_cancel₀ _ (ne_of_gt hdt), pymax_eq_max]
      push_cast
      rfl
    · rw [hr.2.1, ← pymax_zero_div _ _ hdt.le,
        div_mul_cancel₀ _ (ne_of_gt hdt), pymax_eq_max]
      push_cast
      rfl

/-- C3 witness: the spec's reset scenario — wlan0 rx 50000 → 200 —
gives non-negative output, a clamped packet delta, and a clamped byte
delta of zero. -/
theorem c3_clamped_deltas_nonneg_output_witness :
    0 ≤ (mkThroughputEntry c3Env c3St (get_network_stats c3Env.osStats)
        "wlan0").download ∧
    (mkThroughputEntry c3Env c3St (get_network_stats c3Env.osStats)
        "wlan0").rx_packets = max 0 (205 - 500) ∧
    (mkThroughputEntry c3Env c3St (get_network_stats c3Env.osStats)
          "wlan0").download * dtCalc c3Env.now c3St.last_stats_time
        = ((max 0 (200 - 50000) : Int) : ℚ) := by
  have h1 := (c3_clamped_deltas_nonneg_output c3Env c3St).1 "wlan0"
      (mkThroughputEntry c3Env c3St (get_network_stats c3Env.osStats) "wlan0")
      (by rw [throughput_apply, if_pos (by decide)])
  have h2 := (c3_clamped_deltas_nonneg_output c3Env c3St).2 "wlan0"
      (mkThroughputEntry c3Env c3St (get_network_stats c3Env.osStats) "wlan0")
      ⟨200, 100, 205, 50, 11⟩ ⟨50000, 100, 500, 50, 10⟩
      (by rw [throughput_apply, if_pos (by decide)])
      (by decide) (by decide) (by norm_num [c3St]) (by decide)
  exact ⟨h1.1, h2.1, h2.2.2.1⟩

/-- C6: a candidate interface absent from the latest raw reading still
gets a well-formed entry with zero rates, zero packet deltas, and the
last known cumulative totals from the Persistent Total Store. -/
theorem c6_missing_iface_completeness (env : Env) (st : EngineState)
    (iface : String)
    (hmem : iface ∈ engine_candidates env.assignments
        (get_network_stats env.osStats))
    (habs : List.lookup iface (get_network_stats env.osStats) = none) :
    ∃ e, (calculate_throughput env st).throughput iface = some e ∧
      e.download = 0 ∧ e.upload = 0 ∧ e.rx_packets = 0 ∧ e.tx_packets = 0 ∧
      e.total_download
          = ((read_persistent_stats (env.store iface) env.now).1).download ∧
      e.total_upload
          = ((read_persistent_stats (env.store iface) env.now).1).upload := by
  refine ⟨mkThroughputEntry env st (get_network_stats env.osStats) iface,
    ?_, ?_, ?_, ?_, ?_, ?_, ?_⟩
  · rw [throughput_apply, if_pos hmem]
  · exact (mkThroughputEntry_rates_of_missing_cur env st _ iface habs).1
  · exact (mkThroughputEntry_rates_of_missing_cur env st _ iface habs).2.1
  · exact (mkThroughputEntry_rates_of_missing_cur env st _ iface habs).2.2.1
  · exact (mkThroughputEntry_rates_of_missing_cur env st _ iface habs).2.2.2
  · exact (mkThroughputEntry_totals env st _ iface).1
  · exact (mkThroughputEntry_totals env st _ iface).2.1

/-- C6 witness: with candidates eth0/wlan0/wlan1 and a raw reading
containing only eth0, the result still has entries for wlan0 (with
its stored totals 123/45) and wlan1 (zero totals). -/
theorem c6_missing_iface_completeness_witness :
    (∃ e, (calculate_throughput c6Env ⟨[], 0⟩).throughput "wlan0" = some e ∧
        e.download = 0 ∧ e.total_download = 123) ∧
    (∃ e, (calculate_throughput c6Env ⟨[], 0⟩).throughput "wlan1" = some e ∧
        e.download = 0 ∧ e.total_download = 0) := by
  obtain ⟨e1, he1, hd1, -, -, -, ht1, -⟩ :=
    c6_missing_iface_completeness c6Env ⟨[], 0⟩ "wlan0" (by decide) (by decide)
  obtain ⟨e2, he2, hd2, -, -, -, ht2, -⟩ :=
    c6_missing_iface_completeness c6Env ⟨[], 0⟩ "wlan1" (by decide) (by decide)
  refine ⟨⟨e1, he1, hd1, ?_⟩, ⟨e2, he2, hd2, ?_⟩⟩
  · rw [ht1]
    decide
  · rw [ht2]
    decide

/-- C7: on the first sample cycle after process start (empty Sample
Store) every emitted entry has zero download/upload rate and zero
packet deltas, regardless of the raw counter values. -/
theorem c7_first_cycle_zero_rates (env : Env) (st : EngineState)
    (iface : String) (e : ThroughputEntry)
    (h : st.last_stats = [])
    (he : (calculate_throughput env st).throughput iface = some e) :
    e.download = 0 ∧ e.upload = 0 ∧ e.rx_packets = 0 ∧ e.tx_packets = 0 := by
  have hE := throughput_eq_some env st iface e he
  subst hE
  exact mkThroughputEntry_rates_first_cycle env st _ iface h

/-- C7 witness: first cycle with large raw counters still reports all
zero rates and deltas. -/
theorem c7_first_cycle_zero_rates_witness :
    (mkThroughputEntry c7Env ⟨[], 0⟩ (get_network_stats c7Env.osStats)
        "eth0").download = 0 ∧
    (mkThroughputEntry c7Env ⟨[], 0⟩ (get_network_stats c7Env.osStats)
        "eth0").rx_packets = 0 := by
  have h := c7_first_cycle_zero_rates c7Env ⟨[], 0⟩ "eth0"
      (mkThroughputEntry c7Env ⟨[], 0⟩ (get_network_stats c7Env.osStats) "eth0")
      rfl (by rw [throughput_apply, if_pos (by decide)])
  exact ⟨h.1, h.2.2.1⟩

/-- C9: the `/api/throughput` candidate set is built from the literal
`"eth0"` plus the good and bad interfaces — not the configured wired
interface — so for a configuration whose wired interface differs from
`"eth0"` and from the good/bad slots, the response has an `"eth0"` key
and no key for the wired interface. -/
theorem c9_api_keyed_by_literal_eth0 (env : Env) (st : EngineState)
    (hw : env.assignments.wired_interface ≠ "eth0")
    (hg : env.assignments.wired_interface ≠ env.assignments.good_interface)
    (hb : ∀ b, env.assignments.bad_interface = some b →
        env.assignments.wired_interface ≠ b) :
    ((api_throughput env st).1 "eth0").isSome = true ∧
    (api_throughput env st).1 env.assignments.wired_interface = none := by
  constructor
  · apply api_apply_mem_isSome
    simp [api_candidates]
  · apply api_apply_not_mem
    cases hc : env.assignments.bad_interface with
    | none => simp [api_candidates, hc, List.mem_filter, hw, hg]
    | some b =>
        have hwb := hb b hc
        simp [api_candidates, hc, List.mem_filter, hw, hg, hwb]

/-- C9 witness: with wired interface `enp3s0`, the API result has an
`eth0` key and no `enp3s0` key. -/
theorem c9_api_keyed_by_literal_eth0_witness :
    ((api_throughput c9Env ⟨[], 0⟩).1 "eth0").isSome = true ∧
    (api_throughput c9Env ⟨[], 0⟩).1 "enp3s0" = none := by
  have h := c9_api_keyed_by_literal_eth0 c9Env ⟨[], 0⟩ (by decide) (by decide)
      (by intro b hbb
          have hb' : b = "wlan1" := by
            have : (some "wlan1" : Option String) = some b := hbb
            exact (Option.some_injective _ this).symm
          subst hb'
          decide)
  exact h

end WifiDashboard
